import Mathlib

/-!
Verification development for the maintenance-management repository:
defect lifecycle (close / reopen / recurrence), the defect state store and
sync queue, and the bulk asset status-update coordinator.

The defect lifecycle functions (`closeDefect`, `reopenDefect`, `loadDefect`,
`createNewDefect`, `updateDefectData`, `addDefectComment`) are transcribed
from the DefectsProvider context module.  The data-access collaborator
(`getDefectById`, `getDefectByCode`, `createDefect`, `updateDefect`,
`addHistoryEntry`, `addComment`) and the sync-queue collaborator
(`addToSyncQueue`) are not part of the sources; they are modelled from the
specification as CRUD over an in-memory collection keyed by id.

Conventions of the embedding: the wall clock (`new Date().toISOString()`)
is passed in as a `now : String` parameter; generated identifiers
(`crypto.randomUUID()`, server-assigned ids and codes) are drawn from a
counter `nextId` carried in the store; thrown exceptions become
`Except.error`.
-/

/-- Defect status enumeration. -/
inductive DefectStatus where
  | Draft
  | Open
  | Acknowledged
  | InProgress
  | Deferred
  | Closed
  | Overdue
deriving DecidableEq, Repr

/-- Optional structured payload carried by a close history entry. -/
structure HistData where
  actionTaken : String
  returnToService : Option Bool
deriving DecidableEq, Repr

/-- A defect history entry: timestamp, actor, type tag, summary and
optional payload.  The source fields `at` and `by` are Lean keywords and
are embedded as `at_` and `by_`. -/
structure HistoryEntry where
  at_ : String
  by_ : String
  byName : String
  type : String
  summary : String
  data : Option HistData := none
deriving DecidableEq, Repr

/-- A defect comment. -/
structure DefectComment where
  id : String
  at_ : String
  by_ : String
  byName : String
  text : String
deriving DecidableEq, Repr

/-- A defect record.  Attachments are `any[]` in the source and are
embedded as opaque strings. -/
structure Defect where
  id : String
  defectCode : String
  title : String
  description : String
  severityModel : String
  severity : String
  status : DefectStatus
  reopenedCount : Nat
  unsafeDoNotUse : Bool
  targetRectificationDate : Option String
  actions : List String
  attachments : List String
  beforeAfterRequired : Bool
  complianceTags : List String
  assetId : String
  siteId : String
  locationId : Option String
  siteName : Option String
  assignedToId : Option String
  assignedToName : Option String
  parentDefectId : Option String
  recurrenceCount : Option Nat
  closedAt : Option String
  closedBy : Option String
  closedByName : Option String
  actionTaken : Option String
  history : List HistoryEntry
  comments : List DefectComment
  createdAt : String
  createdBy : String
  createdByName : String
  updatedAt : String
  updatedBy : String
  updatedByName : String
deriving DecidableEq, Repr

/-- A sync-queue entry: `addToSyncQueue(operationName, id, payload)`.
Only the operation name and the record id are observed by the claims. -/
structure SyncEntry where
  operationName : String
  docId : String
deriving DecidableEq, Repr

/-- The persistent state seen by the lifecycle layer: the defect
collection, the sync queue, and a counter supplying fresh generated
identifiers. -/
structure Store where
  defects : List Defect
  syncQueue : List SyncEntry
  nextId : Nat
deriving DecidableEq, Repr

/-- Modelled from the spec: data-access collaborator `getDefectById`,
lookup in the collection keyed by id. -/
def getDefectById (st : Store) (i : String) : Option Defect :=
  st.defects.find? (fun d => d.id == i)

/-- Modelled from the spec: data-access collaborator `getDefectByCode`,
lookup by the human-readable defect code. -/
def getDefectByCode (st : Store) (code : String) : Option Defect :=
  st.defects.find? (fun d => d.defectCode == code)

/-- Modelled from the spec: sync-queue collaborator
`addToSyncQueue(operationName, id, payload)`; the queue is append-only. -/
def addToSyncQueue (st : Store) (op : String) (i : String) : Store :=
  { st with syncQueue := st.syncQueue ++ [{ operationName := op, docId := i }] }

/-- The id the store will assign to the next created defect. -/
def freshDefectId (st : Store) : String :=
  "defect-" ++ toString st.nextId

/-- The code the store will assign to the next created defect. -/
def freshDefectCode (st : Store) : String :=
  "DEF-" ++ toString st.nextId

/-- Input to `createDefect`: all defect fields except the server-assigned
`id` and `defectCode` and the flag `unsafeDoNotUse` (initialised false on
creation).  Fields with defaults are those omitted by the recurrence
branch of `reopenDefect` and initialised by the repository. -/
structure NewDefect where
  title : String
  description : String
  severityModel : String
  severity : String
  status : DefectStatus
  reopenedCount : Nat := 0
  targetRectificationDate : Option String
  actions : List String
  attachments : List String
  beforeAfterRequired : Bool
  complianceTags : List String
  assetId : String
  siteId : String
  locationId : Option String
  siteName : Option String := none
  assignedToId : Option String
  assignedToName : Option String
  parentDefectId : Option String := none
  recurrenceCount : Option Nat := none
  closedAt : Option String := none
  closedBy : Option String := none
  closedByName : Option String := none
  actionTaken : Option String := none
  history : List HistoryEntry
  comments : List DefectComment
  createdAt : String
  createdBy : String
  createdByName : String
  updatedAt : String
  updatedBy : String
  updatedByName : String
deriving DecidableEq, Repr

/-- Modelled from the spec: data-access collaborator `createDefect`,
which assigns a fresh server id and defect code, initialises
`unsafeDoNotUse` to false, and appends the record to the collection.
Returns the created record. -/
def createDefect (st : Store) (n : NewDefect) : Defect × Store :=
  let d : Defect :=
    { id := freshDefectId st
      defectCode := freshDefectCode st
      title := n.title
      description := n.description
      severityModel := n.severityModel
      severity := n.severity
      status := n.status
      reopenedCount := n.reopenedCount
      unsafeDoNotUse := false
      targetRectificationDate := n.targetRectificationDate
      actions := n.actions
      attachments := n.attachments
      beforeAfterRequired := n.beforeAfterRequired
      complianceTags := n.complianceTags
      assetId := n.assetId
      siteId := n.siteId
      locationId := n.locationId
      siteName := n.siteName
      assignedToId := n.assignedToId
      assignedToName := n.assignedToName
      parentDefectId := n.parentDefectId
      recurrenceCount := n.recurrenceCount
      closedAt := n.closedAt
      closedBy := n.closedBy
      closedByName := n.closedByName
      actionTaken := n.actionTaken
      history := n.history
      comments := n.comments
      createdAt := n.createdAt
      createdBy := n.createdBy
      createdByName := n.createdByName
      updatedAt := n.updatedAt
      updatedBy := n.updatedBy
      updatedByName := n.updatedByName }
  (d, { st with defects := st.defects ++ [d], nextId := st.nextId + 1 })

/-- Apply `f` to every record in `l` whose id is `i` (the repository
merge of a partial update into the stored record). -/
def updList (l : List Defect) (i : String) (f : Defect → Defect) : List Defect :=
  l.map (fun d => if d.id == i then f d else d)

/-- Modelled from the spec: data-access collaborator `updateDefect`,
which merges an update into the record with the given id and returns the
updated record, raising NotFound when the id is not in the store. -/
def updateDefect (st : Store) (i : String) (f : Defect → Defect) :
    Except String (Defect × Store) :=
  match getDefectById st i with
  | none => Except.error "NotFound"
  | some d => Except.ok (f d, { st with defects := updList st.defects i f })

/-- Modelled from the spec: data-access collaborator `addHistoryEntry`,
appending one entry to the history of the record with the given id. -/
def addHistoryEntry (st : Store) (i : String) (e : HistoryEntry) :
    Except String Store :=
  match getDefectById st i with
  | none => Except.error "NotFound"
  | some _ =>
    Except.ok { st with
      defects := updList st.defects i (fun d => { d with history := d.history ++ [e] }) }

/-- Input to `addComment`: a comment without the server-assigned id. -/
structure CommentInput where
  at_ : String
  by_ : String
  byName : String
  text : String
deriving DecidableEq, Repr

/-- Modelled from the spec: data-access collaborator `addComment`,
appending one comment (with a server-assigned id) to the record with the
given id. -/
def addComment (st : Store) (i : String) (c : CommentInput) :
    Except String Store :=
  match getDefectById st i with
  | none => Except.error "NotFound"
  | some _ =>
    Except.ok { st with
      nextId := st.nextId + 1
      defects := updList st.defects i (fun d =>
        { d with comments := d.comments ++
            [{ id := "comment-" ++ toString st.nextId
               at_ := c.at_, by_ := c.by_, byName := c.byName, text := c.text }] }) }

/-- Context `updateDefectData`: repository update followed by a sync-queue
entry `updateDefect` for the id (the reducer dispatch and summary reload
touch only derived UI state). -/
def updateDefectData (st : Store) (i : String) (f : Defect → Defect) :
    Except String (Defect × Store) :=
  match updateDefect st i f with
  | Except.error e => Except.error e
  | Except.ok (d, st1) => Except.ok (d, addToSyncQueue st1 "updateDefect" i)

/-- Context `createNewDefect`: repository create followed by a sync-queue
entry `createDefect` for the new id. -/
def createNewDefect (st : Store) (n : NewDefect) : Defect × Store :=
  let (d, st1) := createDefect st n
  (d, addToSyncQueue st1 "createDefect" d.id)

/-- Context `addDefectComment`: repository `addComment` (the subsequent
`loadDefect`/`loadDefects` calls only re-read state). -/
def addDefectComment (st : Store) (i : String) (c : CommentInput) :
    Except String Store :=
  addComment st i c

/-- The `data` argument of `closeDefect`. -/
structure CloseData where
  actionTaken : String
  notes : String
  attachments : List String
  returnToService : Option Bool
deriving DecidableEq, Repr

/-- The synthesized close summary `"Action: {actionTaken}. {notes}"`. -/
def closeSummary (data : CloseData) : String :=
  "Action: " ++ data.actionTaken ++ ". " ++ data.notes

/-- The record update `closeDefect` passes to `updateDefectData`,
field for field from the source: status Closed, closure metadata, the
synthesized comment appended to the pre-fetched record's comments, the
given attachments appended, the unsafe flag cleared exactly when
`returnToService === true`, and the updater identity. -/
def closeUpd (defect : Defect) (data : CloseData) (userId userName now cid : String)
    (d : Defect) : Defect :=
  { d with
    status := DefectStatus.Closed
    closedAt := some now
    closedBy := some userId
    closedByName := some userName
    actionTaken := some data.actionTaken
    comments := defect.comments ++
      [{ id := cid, at_ := now, by_ := userId, byName := userName
         text := closeSummary data }]
    attachments := defect.attachments ++ data.attachments
    unsafeDoNotUse :=
      if data.returnToService == some true then false else defect.unsafeDoNotUse
    updatedBy := userId
    updatedByName := userName }

/-- The `type=close` history entry appended by `closeDefect`. -/
def closeHistEntry (data : CloseData) (userId userName now : String) : HistoryEntry :=
  { at_ := now, by_ := userId, byName := userName
    type := "close", summary := closeSummary data
    data := some { actionTaken := data.actionTaken
                   returnToService := data.returnToService } }

/-- The `type=status_change` clearance entry appended by `closeDefect`
when `returnToService` is set and the defect was unsafe. -/
def clearanceHistEntry (userId userName now : String) : HistoryEntry :=
  { at_ := now, by_ := userId, byName := userName
    type := "status_change"
    summary := "Asset returned to service - Unsafe flag cleared" }

/-- Context `closeDefect(defectId, data, userId, userName)`, transcribed
from the DefectsProvider: look the defect up (throw "Defect not found"),
synthesize the close summary, update the record through
`updateDefectData` (see `closeUpd`), append a `close` history entry,
conditionally append the `status_change` clearance entry, and queue a
`closeDefect` sync entry.  The generated comment id
(`crypto.randomUUID()`) is drawn from the store counter. -/
def closeDefect (st : Store) (defectId : String) (data : CloseData)
    (userId userName : String) (now : String) : Except String Store :=
  match getDefectById st defectId with
  | none => Except.error "Defect not found"
  | some defect => do
    let commentId := "comment-" ++ toString st.nextId
    let st0 : Store := { st with nextId := st.nextId + 1 }
    let (_, st1) ← updateDefectData st0 defectId
      (closeUpd defect data userId userName now commentId)
    let st2 ← addHistoryEntry st1 defectId (closeHistEntry data userId userName now)
    let st3 ←
      if (data.returnToService == some true) && defect.unsafeDoNotUse then
        addHistoryEntry st2 defectId (clearanceHistEntry userId userName now)
      else
        pure st2
    return addToSyncQueue st3 "closeDefect" defectId

/-- The `data` argument of `reopenDefect`. -/
structure ReopenData where
  isNewOccurrence : Bool
  reason : String
  attachments : Option (List String)
deriving DecidableEq, Repr

/-- The argument object the recurrence branch of `reopenDefect` passes to
the repository `createDefect`, field for field from the source. -/
def recurrenceInput (defect : Defect) (data : ReopenData)
    (userId userName now : String) : NewDefect :=
  { title := defect.title
    description := "Recurrence of " ++ defect.defectCode ++ ": " ++ data.reason
    severity := defect.severity
    severityModel := defect.severityModel
    status := DefectStatus.Open
    assetId := defect.assetId
    siteId := defect.siteId
    locationId := defect.locationId
    assignedToId := defect.assignedToId
    assignedToName := defect.assignedToName
    targetRectificationDate := defect.targetRectificationDate
    complianceTags := defect.complianceTags
    actions := defect.actions
    attachments := data.attachments.getD []
    beforeAfterRequired := defect.beforeAfterRequired
    history := []
    comments := []
    createdAt := now
    createdBy := userId
    createdByName := userName
    updatedAt := now
    updatedBy := userId
    updatedByName := userName }

/-- The update linking the recurrence record to its parent. -/
def linkChildUpd (defect : Defect) (d : Defect) : Defect :=
  { d with parentDefectId := some defect.id, recurrenceCount := some 0 }

/-- The update bumping the parent's recurrence count,
`(defect.recurrenceCount || 0) + 1` over the pre-fetched record. -/
def bumpParentUpd (defect : Defect) (d : Defect) : Defect :=
  { d with recurrenceCount := some ((defect.recurrenceCount.getD 0) + 1) }

/-- The record update of the same-record reopen branch, field for field
from the source. -/
def reopenUpd (defect : Defect) (data : ReopenData) (userId userName : String)
    (d : Defect) : Defect :=
  { d with
    status := DefectStatus.Open
    reopenedCount := defect.reopenedCount + 1
    closedAt := none
    closedBy := none
    closedByName := none
    attachments :=
      match data.attachments with
      | some a => defect.attachments ++ a
      | none => defect.attachments
    updatedBy := userId
    updatedByName := userName }

/-- The `type=reopen` history entry appended by the same-record branch. -/
def reopenHistEntry (data : ReopenData) (userId userName now : String) : HistoryEntry :=
  { at_ := now, by_ := userId, byName := userName
    type := "reopen", summary := "Defect reopened: " ++ data.reason }

/-- The comment appended by the same-record branch. -/
def reopenCommentInput (data : ReopenData) (userId userName now : String) : CommentInput :=
  { at_ := now, by_ := userId, byName := userName
    text := "Reopened: " ++ data.reason }

/-- Context `reopenDefect(defectId, data, userId, userName)`, transcribed
from the DefectsProvider.  When `isNewOccurrence` it creates a linked
recurrence record through the repository `createDefect` (imported
directly, so no sync-queue entry is made for the creation), links it to
the parent and bumps the parent recurrence count through
`updateDefectData`, and returns the new id.  Otherwise it mutates the
same record, appends a `reopen` history entry and a comment, queues a
`reopenDefect` sync entry and returns the same id. -/
def reopenDefect (st : Store) (defectId : String) (data : ReopenData)
    (userId userName : String) (now : String) : Except String (String × Store) :=
  match getDefectById st defectId with
  | none => Except.error "Defect not found"
  | some defect =>
    if data.isNewOccurrence then do
      let (newDefect, st0) := createDefect st (recurrenceInput defect data userId userName now)
      let (_, st1) ← updateDefectData st0 newDefect.id (linkChildUpd defect)
      let (_, st2) ← updateDefectData st1 defect.id (bumpParentUpd defect)
      return (newDefect.id, st2)
    else do
      let (_, st1) ← updateDefectData st defectId (reopenUpd defect data userId userName)
      let st2 ← addHistoryEntry st1 defectId (reopenHistEntry data userId userName now)
      let st3 ← addDefectComment st2 defectId (reopenCommentInput data userId userName now)
      return (defectId, addToSyncQueue st3 "reopenDefect" defectId)

/-- `String.startsWith`, embedded over the character list so that it is
kernel-computable. -/
def strStartsWith (s p : String) : Bool :=
  p.data.isPrefixOf s.data

/-- Context `loadDefect(id)`: resolve by id; when that yields nothing and
the id looks like a defect code (starts with "DEF-"), retry by code; the
result becomes `currentDefect` (null when both resolutions fail). -/
def loadDefect (st : Store) (i : String) : Option Defect :=
  match getDefectById st i with
  | some defect => some defect
  | none =>
    if strStartsWith i "DEF-" then getDefectByCode st i
    else none

/-- Asset operational status enumeration. -/
inductive OperationalStatus where
  | InUse
  | OutOfUse
  | OffHirePending
  | OffHired
  | Quarantined
  | Archived
deriving DecidableEq, Repr

/-- Asset lifecycle status enumeration. -/
inductive LifecycleStatus where
  | Active
  | Decommissioned
  | Disposed
  | Expected
deriving DecidableEq, Repr

/-- Validator-proposed field substitutions resolving an invalid pair. -/
structure AutoCorrect where
  operationalStatus : Option OperationalStatus := none
  lifecycleStatus : Option LifecycleStatus := none
deriving DecidableEq, Repr

/-- Result of `validateStatusCombination`. -/
structure ValidationResult where
  isValid : Bool
  message : Option String := none
  autoCorrect : Option AutoCorrect := none
deriving DecidableEq, Repr

/-- Modelled from the spec: `validateStatusCombination` (the
statusValidation utility is not among the sources).  The fixed table per
the spec: lifecycle Disposed with an operational status other than
OffHired or Archived is invalid, auto-correctable to operational status
Archived; every other pair, in particular Quarantined with Active, is
valid. -/
def validateStatusCombination (op : OperationalStatus) (lc : LifecycleStatus) :
    ValidationResult :=
  match lc, op with
  | LifecycleStatus.Disposed, OperationalStatus.OffHired => { isValid := true }
  | LifecycleStatus.Disposed, OperationalStatus.Archived => { isValid := true }
  | LifecycleStatus.Disposed, _ =>
    { isValid := false
      message := some "Disposed assets must be off-hired or archived"
      autoCorrect := some { operationalStatus := some OperationalStatus.Archived } }
  | _, _ => { isValid := true }

/-- Apply an auto-correct entry to a status pair: each proposed field
replaces the corresponding input field, absent fields are kept. -/
def applyAutoCorrect (op : OperationalStatus) (lc : LifecycleStatus)
    (ac : AutoCorrect) : OperationalStatus × LifecycleStatus :=
  (ac.operationalStatus.getD op, ac.lifecycleStatus.getD lc)

/-- An asset, reduced to the fields the bulk coordinator observes. -/
structure Asset where
  id : String
  operationalStatus : OperationalStatus
  lifecycleStatus : LifecycleStatus
deriving DecidableEq, Repr

/-- A partial asset update carrying the optionally-changed statuses. -/
structure AssetUpdates where
  operationalStatus : Option OperationalStatus := none
  lifecycleStatus : Option LifecycleStatus := none
deriving DecidableEq, Repr

/-- A per-item bulk failure record. -/
structure BulkError where
  id : String
  reason : String
deriving DecidableEq, Repr

/-- Aggregate result of a bulk update. -/
structure BulkResult where
  updated : Nat
  errors : List BulkError
deriving DecidableEq, Repr

/-- Merge a partial update into an asset: each present status replaces
the stored one. -/
def applyUpdates (a : Asset) (u : AssetUpdates) : Asset :=
  { a with
    operationalStatus := u.operationalStatus.getD a.operationalStatus
    lifecycleStatus := u.lifecycleStatus.getD a.lifecycleStatus }

/-- Modelled from the spec: the per-batch validation step of
`bulkUpdateAssets`.  When both statuses are part of the update the pair is
re-validated; an auto-correct is applied transparently; an invalid pair
with no auto-correct is a failure with the validator's message.  The
outcome depends only on the updates, so it is shared by every item of the
batch. -/
def effectiveUpdates (u : AssetUpdates) : Except String AssetUpdates :=
  match u.operationalStatus, u.lifecycleStatus with
  | some op, some lc =>
    let v := validateStatusCombination op lc
    if v.isValid then Except.ok u
    else
      match v.autoCorrect with
      | some ac =>
        Except.ok { operationalStatus := some (ac.operationalStatus.getD op)
                    lifecycleStatus := some (ac.lifecycleStatus.getD lc) }
      | none => Except.error (v.message.getD "Invalid status combination")
  | _, _ => Except.ok u

/-- Modelled from the spec: one step of `bulkUpdateAssets` (the assets
service is not among the sources).  Load the asset by id (failure: not
found); validate/auto-correct the update; persist the merged record. -/
def processOne (assets : List Asset) (u : AssetUpdates) (i : String) :
    Except BulkError (List Asset) :=
  match assets.find? (fun a => a.id == i) with
  | none => Except.error { id := i, reason := "Asset not found" }
  | some _ =>
    match effectiveUpdates u with
    | Except.error msg => Except.error { id := i, reason := msg }
    | Except.ok eff =>
      Except.ok (assets.map (fun a => if a.id == i then applyUpdates a eff else a))

/-- Modelled from the spec: `bulkUpdateAssets(ids, updates)`.  Processes
the ids in input order; a per-item failure records `{id, reason}` and the
batch continues; successes are counted. -/
def bulkUpdateAssets (assets : List Asset) (ids : List String) (u : AssetUpdates) :
    BulkResult × List Asset :=
  match ids with
  | [] => ({ updated := 0, errors := [] }, assets)
  | i :: rest =>
    match processOne assets u i with
    | Except.ok assets1 =>
      let (res, finalAssets) := bulkUpdateAssets assets1 rest u
      ({ updated := res.updated + 1, errors := res.errors }, finalAssets)
    | Except.error e =>
      let (res, finalAssets) := bulkUpdateAssets assets rest u
      ({ updated := res.updated, errors := e :: res.errors }, finalAssets)

/-- The per-item failure predicate of the bulk coordinator: the id does
not resolve to an asset, or the update itself is rejected (invalid pair
with no auto-correct). -/
def itemFails (assets : List Asset) (u : AssetUpdates) (i : String) : Bool :=
  (assets.find? (fun a => a.id == i)).isNone || !(effectiveUpdates u).isOk

/-- The recurrence record the new-occurrence branch creates. -/
def recurrenceRecord (st : Store) (defect : Defect) (data : ReopenData)
    (userId userName now : String) : Defect :=
  (createDefect st (recurrenceInput defect data userId userName now)).1

/-- A concrete Closed defect used by the concrete-input theorems. -/
def wClosed : Defect :=
  { id := "d1", defectCode := "DEF-000001", title := "Hydraulic leak"
    description := "seep at rod seal", severityModel := "LMH", severity := "Medium"
    status := DefectStatus.Closed, reopenedCount := 0, unsafeDoNotUse := false
    targetRectificationDate := some "2026-01-10", actions := [], attachments := ["a0"]
    beforeAfterRequired := false, complianceTags := ["tag1"], assetId := "AST-1"
    siteId := "1", locationId := none, siteName := some "Gate B"
    assignedToId := some "user-1", assignedToName := some "M. Jones"
    parentDefectId := none, recurrenceCount := some 0
    closedAt := some "t0", closedBy := some "u0", closedByName := some "U0"
    actionTaken := some "Sealed", history := [], comments := []
    createdAt := "t0", createdBy := "u0", createdByName := "U0"
    updatedAt := "t0", updatedBy := "u0", updatedByName := "U0" }

/-- A concrete Open defect. -/
def wOpen : Defect :=
  { wClosed with
    id := "d2", defectCode := "DEF-000002"
    status := DefectStatus.Open, closedAt := none, closedBy := none
    closedByName := none, actionTaken := none, recurrenceCount := none }

/-- A concrete Open defect flagged unsafe. -/
def wUnsafe : Defect :=
  { wOpen with id := "d3", defectCode := "DEF-000003", unsafeDoNotUse := true }

/-- A concrete store holding the three defects above with an empty sync
queue. -/
def wStore : Store :=
  { defects := [wClosed, wOpen, wUnsafe], syncQueue := [], nextId := 7 }

/-- Concrete close data with returnToService set. -/
def wCloseData : CloseData :=
  { actionTaken := "Replaced seal", notes := "Tested ok", attachments := []
    returnToService := some true }

/-- Concrete close data without returnToService. -/
def wCloseDataPlain : CloseData :=
  { actionTaken := "Fixed", notes := "ok", attachments := ["p1"]
    returnToService := none }

/-- Concrete same-record reopen data. -/
def wReopenSame : ReopenData :=
  { isNewOccurrence := false, reason := "leak returned", attachments := some ["att1"] }

/-- Concrete new-occurrence reopen data. -/
def wReopenNew : ReopenData :=
  { isNewOccurrence := true, reason := "leak returned", attachments := none }

theorem find_map_pres (g : Defect → Defect) (hg : ∀ d, (g d).id = d.id)
    (l : List Defect) (i : String) :
    (l.map g).find? (fun d => d.id == i) = (l.find? (fun d => d.id == i)).map g := by
  rw [List.find?_map]
  have hp : ((fun d => d.id == i) ∘ g) = (fun d : Defect => d.id == i) := by
    funext d
    simp [Function.comp, hg d]
  rw [hp]

theorem updList_find_self (l : List Defect) (i : String) (d : Defect)
    (f : Defect → Defect)
    (h : l.find? (fun e => e.id == i) = some d)
    (hf : ∀ e, (f e).id = e.id) :
    (updList l i f).find? (fun e => e.id == i) = some (f d) := by
  unfold updList
  rw [find_map_pres _ (fun e => by
    show (if e.id == i then f e else e).id = e.id
    split <;> simp [hf]) l i, h]
  have hd := List.find?_some h
  simp only at hd
  have hdi : d.id = i := by simpa using hd
  simp [hdi]

theorem updList_find_other (l : List Defect) (i j : String) (f : Defect → Defect)
    (hne : j ≠ i)
    (hf : ∀ e, (f e).id = e.id) :
    (updList l i f).find? (fun e => e.id == j) = l.find? (fun e => e.id == j) := by
  unfold updList
  rw [find_map_pres _ (fun e => by
    show (if e.id == i then f e else e).id = e.id
    split <;> simp [hf]) l j]
  cases h : l.find? (fun e => e.id == j) with
  | none => rfl
  | some d =>
    have hd := List.find?_some h
    simp only at hd
    have hdj : d.id = j := by simpa using hd
    simp [hdj, hne]

theorem updateDefectData_eq (st : Store) (i : String) (d : Defect)
    (f : Defect → Defect) (h : getDefectById st i = some d) :
    updateDefectData st i f =
      Except.ok (f d,
        { st with defects := updList st.defects i f
                  syncQueue := st.syncQueue ++ [{ operationName := "updateDefect", docId := i }] }) := by
  unfold updateDefectData updateDefect addToSyncQueue
  rw [h]

theorem addHistoryEntry_eq (st : Store) (i : String) (d : Defect) (e : HistoryEntry)
    (h : getDefectById st i = some d) :
    addHistoryEntry st i e =
      Except.ok { st with
        defects := updList st.defects i (fun x => { x with history := x.history ++ [e] }) } := by
  unfold addHistoryEntry
  rw [h]

theorem addComment_eq (st : Store) (i : String) (d : Defect) (c : CommentInput)
    (h : getDefectById st i = some d) :
    addComment st i c =
      Except.ok { st with
        nextId := st.nextId + 1
        defects := updList st.defects i (fun x =>
          { x with comments := x.comments ++
              [{ id := "comment-" ++ toString st.nextId
                 at_ := c.at_, by_ := c.by_, byName := c.byName, text := c.text }] }) } := by
  unfold addComment
  rw [h]
theorem closeDefect_spec (st : Store) (defectId : String) (data : CloseData)
    (userId userName now : String) (defect : Defect)
    (h : getDefectById st defectId = some defect) :
    ∃ st' d', closeDefect st defectId data userId userName now = Except.ok st' ∧
      getDefectById st' defectId = some d' ∧
      d'.status = DefectStatus.Closed ∧
      d'.closedAt = some now ∧
      d'.closedBy = some userId ∧
      d'.closedByName = some userName ∧
      d'.actionTaken = some data.actionTaken ∧
      d'.unsafeDoNotUse =
        (if data.returnToService == some true then false else defect.unsafeDoNotUse) ∧
      d'.comments = defect.comments ++
        [{ id := "comment-" ++ toString st.nextId, at_ := now, by_ := userId
           byName := userName, text := closeSummary data }] ∧
      d'.history = defect.history ++
        (closeHistEntry data userId userName now ::
          (if (data.returnToService == some true) && defect.unsafeDoNotUse then
            [clearanceHistEntry userId userName now] else [])) ∧
      st'.syncQueue = st.syncQueue ++
        [{ operationName := "updateDefect", docId := defectId },
         { operationName := "closeDefect", docId := defectId }] := by
  have h0 : getDefectById
      { defects := st.defects, syncQueue := st.syncQueue, nextId := st.nextId + 1 }
      defectId = some defect := h
  unfold closeDefect
  rw [h]
  simp only
  rw [updateDefectData_eq _ defectId defect
      (closeUpd defect data userId userName now ("comment-" ++ toString st.nextId)) h0]
  simp only [bind, Except.bind]
  have h1 : getDefectById
      { defects := updList st.defects defectId
          (closeUpd defect data userId userName now ("comment-" ++ toString st.nextId))
        syncQueue := st.syncQueue ++ [{ operationName := "updateDefect", docId := defectId }]
        nextId := st.nextId + 1 }
      defectId =
      some (closeUpd defect data userId userName now
        ("comment-" ++ toString st.nextId) defect) :=
    updList_find_self st.defects defectId defect _ h (fun e => rfl)
  rw [addHistoryEntry_eq _ defectId _ (closeHistEntry data userId userName now) h1]
  simp only [bind, Except.bind]
  cases hc : (data.returnToService == some true) && defect.unsafeDoNotUse with
  | false =>
    simp only [hc, Bool.false_eq_true, if_false, pure, Except.pure]
    refine ⟨_,
      (fun x => { x with history := x.history ++ [closeHistEntry data userId userName now] })
        (closeUpd defect data userId userName now ("comment-" ++ toString st.nextId) defect),
      rfl, ?_, ?_, ?_, ?_, ?_, ?_, ?_, ?_, ?_, ?_⟩
    · exact updList_find_self _ defectId _ _
        (updList_find_self st.defects defectId defect _ h (fun e => rfl)) (fun e => rfl)
    · rfl
    · rfl
    · rfl
    · rfl
    · rfl
    · rfl
    · rfl
    · simp [closeUpd]
    · simp [addToSyncQueue]
  | true =>
    simp only [hc, if_true]
    have h2 : getDefectById
        { defects := updList
            (updList st.defects defectId
              (closeUpd defect data userId userName now ("comment-" ++ toString st.nextId)))
            defectId
            (fun x => { x with history := x.history ++ [closeHistEntry data userId userName now] })
          syncQueue := st.syncQueue ++ [{ operationName := "updateDefect", docId := defectId }]
          nextId := st.nextId + 1 }
        defectId =
        some ((fun x => { x with history := x.history ++ [closeHistEntry data userId userName now] })
          (closeUpd defect data userId userName now ("comment-" ++ toString st.nextId) defect)) :=
      updList_find_self _ defectId _ _
        (updList_find_self st.defects defectId defect _ h (fun e => rfl)) (fun e => rfl)
    rw [addHistoryEntry_eq _ defectId _ (clearanceHistEntry userId userName now) h2]
    simp only [bind, Except.bind, pure, Except.pure]
    refine ⟨_,
      (fun x => { x with history := x.history ++ [clearanceHistEntry userId userName now] })
        ((fun x => { x with history := x.history ++ [closeHistEntry data userId userName now] })
          (closeUpd defect data userId userName now ("comment-" ++ toString st.nextId) defect)),
      rfl, ?_, ?_, ?_, ?_, ?_, ?_, ?_, ?_, ?_, ?_⟩
    · exact updList_find_self _ defectId _ _
        (updList_find_self _ defectId _ _
          (updList_find_self st.defects defectId defect _ h (fun e => rfl)) (fun e => rfl))
        (fun e => rfl)
    · rfl
    · rfl
    · rfl
    · rfl
    · rfl
    · rfl
    · rfl
    · simp [closeUpd]
    · simp [addToSyncQueue]

theorem reopenDefect_same_spec (st : Store) (defectId : String) (data : ReopenData)
    (userId userName now : String) (defect : Defect)
    (h : getDefectById st defectId = some defect)
    (hocc : data.isNewOccurrence = false) :
    ∃ st' d', reopenDefect st defectId data userId userName now =
        Except.ok (defectId, st') ∧
      getDefectById st' defectId = some d' ∧
      d'.status = DefectStatus.Open ∧
      d'.reopenedCount = defect.reopenedCount + 1 ∧
      d'.closedAt = none ∧
      d'.closedBy = none ∧
      d'.closedByName = none ∧
      d'.attachments =
        (match data.attachments with
         | some a => defect.attachments ++ a
         | none => defect.attachments) ∧
      d'.history = defect.history ++ [reopenHistEntry data userId userName now] ∧
      d'.comments = defect.comments ++
        [{ id := "comment-" ++ toString st.nextId, at_ := now, by_ := userId
           byName := userName, text := "Reopened: " ++ data.reason }] ∧
      st'.syncQueue = st.syncQueue ++
        [{ operationName := "updateDefect", docId := defectId },
         { operationName := "reopenDefect", docId := defectId }] := by
  unfold reopenDefect
  rw [h]
  simp only [hocc, Bool.false_eq_true, if_false]
  rw [updateDefectData_eq st defectId defect (reopenUpd defect data userId userName) h]
  simp only [bind, Except.bind]
  have h1 : getDefectById
      { defects := updList st.defects defectId (reopenUpd defect data userId userName)
        syncQueue := st.syncQueue ++ [{ operationName := "updateDefect", docId := defectId }]
        nextId := st.nextId }
      defectId = some (reopenUpd defect data userId userName defect) :=
    updList_find_self st.defects defectId defect _ h (fun e => rfl)
  rw [addHistoryEntry_eq _ defectId _ (reopenHistEntry data userId userName now) h1]
  simp only [bind, Except.bind, addDefectComment]
  have h2 : getDefectById
      { defects := updList
          (updList st.defects defectId (reopenUpd defect data userId userName))
          defectId
          (fun x => { x with history := x.history ++ [reopenHistEntry data userId userName now] })
        syncQueue := st.syncQueue ++ [{ operationName := "updateDefect", docId := defectId }]
        nextId := st.nextId }
      defectId =
      some ((fun x => { x with history := x.history ++ [reopenHistEntry data userId userName now] })
        (reopenUpd defect data userId userName defect)) :=
    updList_find_self _ defectId _ _
      (updList_find_self st.defects defectId defect _ h (fun e => rfl)) (fun e => rfl)
  rw [addComment_eq _ defectId _ (reopenCommentInput data userId userName now) h2]
  simp only [bind, Except.bind, pure, Except.pure]
  refine ⟨_,
    (fun x => { x with comments := x.comments ++
        [{ id := "comment-" ++ toString st.nextId, at_ := now, by_ := userId
           byName := userName, text := "Reopened: " ++ data.reason }] })
      ((fun x => { x with history := x.history ++ [reopenHistEntry data userId userName now] })
        (reopenUpd defect data userId userName defect)),
    rfl, ?_, ?_, ?_, ?_, ?_, ?_, ?_, ?_, ?_, ?_⟩
  · exact updList_find_self _ defectId _ _
      (updList_find_self _ defectId _ _
        (updList_find_self st.defects defectId defect _ h (fun e => rfl)) (fun e => rfl))
      (fun e => rfl)
  · rfl
  · rfl
  · rfl
  · rfl
  · rfl
  · rfl
  · simp [reopenUpd]
  · rfl
  · simp [addToSyncQueue]

theorem find_append_fresh (l : List Defect) (nd : Defect)
    (hfresh : ∀ e ∈ l, e.id ≠ nd.id) :
    (l ++ [nd]).find? (fun e => e.id == nd.id) = some nd := by
  rw [List.find?_append]
  have h1 : l.find? (fun e => e.id == nd.id) = none := by
    rw [List.find?_eq_none]
    intro x hx
    simp [hfresh x hx]
  rw [h1]
  simp

theorem find_append_left (l : List Defect) (nd : Defect) (p : Defect → Bool) (d : Defect)
    (h : l.find? p = some d) : (l ++ [nd]).find? p = some d := by
  rw [List.find?_append, h]
  rfl

theorem reopenDefect_new_spec (st : Store) (defectId : String) (data : ReopenData)
    (userId userName now : String) (defect : Defect)
    (h : getDefectById st defectId = some defect)
    (hocc : data.isNewOccurrence = true)
    (hfresh : ∀ e ∈ st.defects, e.id ≠ freshDefectId st) :
    ∃ st' child parent,
      reopenDefect st defectId data userId userName now =
        Except.ok (freshDefectId st, st') ∧
      getDefectById st' (freshDefectId st) = some child ∧
      child = linkChildUpd defect (recurrenceRecord st defect data userId userName now) ∧
      getDefectById st' defectId = some parent ∧
      parent = bumpParentUpd defect defect ∧
      st'.syncQueue = st.syncQueue ++
        [{ operationName := "updateDefect", docId := freshDefectId st },
         { operationName := "updateDefect", docId := defectId }] := by
  have hdid : defect.id = defectId := by
    have := List.find?_some h
    simpa using this
  have hne : defectId ≠ freshDefectId st := by
    rw [← hdid]
    exact hfresh defect (List.mem_of_find?_eq_some h)
  unfold reopenDefect
  rw [h]
  simp only [hocc, if_true]
  rw [show createDefect st (recurrenceInput defect data userId userName now) =
      (recurrenceRecord st defect data userId userName now,
       { st with
         defects := st.defects ++ [recurrenceRecord st defect data userId userName now]
         nextId := st.nextId + 1 }) from rfl]
  dsimp only
  rw [show (recurrenceRecord st defect data userId userName now).id = freshDefectId st
      from rfl]
  rw [hdid]
  have hfr : ∀ e ∈ st.defects,
      e.id ≠ (recurrenceRecord st defect data userId userName now).id := hfresh
  have h1 : getDefectById
      { defects := st.defects ++ [recurrenceRecord st defect data userId userName now]
        syncQueue := st.syncQueue
        nextId := st.nextId + 1 }
      (freshDefectId st) = some (recurrenceRecord st defect data userId userName now) :=
    find_append_fresh st.defects (recurrenceRecord st defect data userId userName now) hfr
  rw [updateDefectData_eq _ (freshDefectId st) _ (linkChildUpd defect) h1]
  simp only [bind, Except.bind]
  have hp1 : getDefectById
      { defects := updList
          (st.defects ++ [recurrenceRecord st defect data userId userName now])
          (freshDefectId st) (linkChildUpd defect)
        syncQueue := st.syncQueue ++
          [{ operationName := "updateDefect", docId := freshDefectId st }]
        nextId := st.nextId + 1 }
      defectId = some defect := by
    have e1 := updList_find_other
      (st.defects ++ [recurrenceRecord st defect data userId userName now])
      (freshDefectId st) defectId (linkChildUpd defect) hne (fun e => rfl)
    exact e1.trans (find_append_left st.defects
      (recurrenceRecord st defect data userId userName now) _ defect h)
  rw [updateDefectData_eq _ defectId _ (bumpParentUpd defect) hp1]
  simp only [bind, Except.bind, pure, Except.pure]
  refine ⟨_, linkChildUpd defect (recurrenceRecord st defect data userId userName now),
    bumpParentUpd defect defect, rfl, ?_, rfl, ?_, rfl, ?_⟩
  · have e2 := updList_find_other
      (updList (st.defects ++ [recurrenceRecord st defect data userId userName now])
        (freshDefectId st) (linkChildUpd defect))
      defectId (freshDefectId st) (bumpParentUpd defect) (Ne.symm hne) (fun e => rfl)
    exact e2.trans (updList_find_self
      (st.defects ++ [recurrenceRecord st defect data userId userName now])
      (freshDefectId st) (recurrenceRecord st defect data userId userName now)
      (linkChildUpd defect)
      (find_append_fresh st.defects (recurrenceRecord st defect data userId userName now) hfr)
      (fun e => rfl))
  · exact updList_find_self _ defectId _ (bumpParentUpd defect) hp1 (fun e => rfl)
  · simp

theorem afind_map_pres (g : Asset → Asset) (hg : ∀ a, (g a).id = a.id)
    (l : List Asset) (i : String) :
    (l.map g).find? (fun a => a.id == i) = (l.find? (fun a => a.id == i)).map g := by
  rw [List.find?_map]
  have hp : ((fun a => a.id == i) ∘ g) = (fun a : Asset => a.id == i) := by
    funext a
    simp [Function.comp, hg a]
  rw [hp]

theorem processOne_isOk (assets : List Asset) (u : AssetUpdates) (i : String) :
    (processOne assets u i).isOk = !(itemFails assets u i) := by
  unfold processOne itemFails
  cases hf : assets.find? (fun a => a.id == i) with
  | none => simp [Except.isOk, Except.toBool]
  | some a =>
    cases he : effectiveUpdates u with
    | error msg => simp [Except.isOk, Except.toBool, he]
    | ok eff => simp [Except.isOk, Except.toBool, he]

theorem processOne_error_id (assets : List Asset) (u : AssetUpdates) (i : String)
    (e : BulkError) (h : processOne assets u i = Except.error e) : e.id = i := by
  unfold processOne at h
  cases hf : assets.find? (fun a => a.id == i) with
  | none =>
    rw [hf] at h
    injection h with h1
    rw [← h1]
  | some a =>
    rw [hf] at h
    cases he : effectiveUpdates u with
    | error msg =>
      rw [he] at h
      injection h with h1
      rw [← h1]
    | ok eff =>
      rw [he] at h
      cases h

theorem itemFails_stable (assets : List Asset) (u : AssetUpdates) (i0 : String)
    (assets1 : List Asset) (h : processOne assets u i0 = Except.ok assets1) :
    ∀ j, itemFails assets1 u j = itemFails assets u j := by
  intro j
  unfold processOne at h
  cases hf : assets.find? (fun a => a.id == i0) with
  | none =>
    rw [hf] at h
    cases h
  | some a =>
    rw [hf] at h
    cases he : effectiveUpdates u with
    | error msg =>
      rw [he] at h
      cases h
    | ok eff =>
      rw [he] at h
      injection h with h1
      rw [← h1]
      unfold itemFails
      rw [afind_map_pres _ (fun a => by
        show (if a.id == i0 then applyUpdates a eff else a).id = a.id
        split <;> rfl) assets j]
      cases assets.find? (fun a => a.id == j) <;> simp

theorem bulk_spec (ids : List String) : ∀ (assets : List Asset) (u : AssetUpdates),
    ((bulkUpdateAssets assets ids u).1).errors.map BulkError.id =
      ids.filter (fun i => itemFails assets u i) ∧
    ((bulkUpdateAssets assets ids u).1).updated +
      ((bulkUpdateAssets assets ids u).1).errors.length = ids.length := by
  induction ids with
  | nil =>
    intro assets u
    simp [bulkUpdateAssets]
  | cons i rest ih =>
    intro assets u
    unfold bulkUpdateAssets
    cases hp : processOne assets u i with
    | ok assets1 =>
      have hok := processOne_isOk assets u i
      rw [hp] at hok
      have hfail : itemFails assets u i = false := by
        cases hx : itemFails assets u i
        · rfl
        · rw [hx] at hok
          simp [Except.isOk, Except.toBool] at hok
      obtain ⟨ih1, ih2⟩ := ih assets1 u
      rcases hB : bulkUpdateAssets assets1 rest u with ⟨res, fin⟩
      rw [hB] at ih1 ih2
      dsimp only
      rw [hB]
      dsimp only at ih1 ih2 ⊢
      have hst : (fun j => itemFails assets u j) = (fun j => itemFails assets1 u j) :=
        funext (fun j => (itemFails_stable assets u i assets1 hp j).symm)
      constructor
      · simp only [List.filter_cons, hfail]
        rw [hst]
        exact ih1
      · simp only [List.length_cons]
        omega
    | error e =>
      have hok := processOne_isOk assets u i
      rw [hp] at hok
      have hfail : itemFails assets u i = true := by
        cases hx : itemFails assets u i
        · rw [hx] at hok
          simp [Except.isOk, Except.toBool] at hok
        · rfl
      obtain ⟨ih1, ih2⟩ := ih assets u
      rcases hB : bulkUpdateAssets assets rest u with ⟨res, fin⟩
      rw [hB] at ih1 ih2
      dsimp only
      dsimp only at ih1 ih2
      constructor
      · simp only [List.filter_cons, hfail]
        rw [List.map_cons, ih1, processOne_error_id assets u i e hp]
        simp
      · simp only [List.length_cons]
        omega

/-- C9: when the defect id does not resolve, `closeDefect` and
`reopenDefect` throw "Defect not found" as their first step: no store is
produced, so no defect record is created or updated and no sync-queue
entry is appended. -/
theorem C9_not_found_errors (st : Store) (defectId : String) (cdata : CloseData)
    (rdata : ReopenData) (userId userName now : String)
    (h : getDefectById st defectId = none) :
    closeDefect st defectId cdata userId userName now =
      Except.error "Defect not found" ∧
    reopenDefect st defectId rdata userId userName now =
      Except.error "Defect not found" := by
  unfold closeDefect reopenDefect
  rw [h]
  exact ⟨rfl, rfl⟩

/-- Witness for C9 at a concrete missing id. -/
theorem C9_not_found_errors_witness :
    closeDefect wStore "missing" wCloseData "u9" "U9" "t9" =
      Except.error "Defect not found" ∧
    reopenDefect wStore "missing" wReopenSame "u9" "U9" "t9" =
      Except.error "Defect not found" :=
  C9_not_found_errors wStore "missing" wCloseData wReopenSame "u9" "U9" "t9" (by decide)

/-- C10: `loadDefect` resolves by id first; when that misses and the id
starts with "DEF-" it retries by defect code; when the id starts with
"DEF-", the result is null exactly when both lookups fail. -/
theorem C10_load_defect_fallback (st : Store) (i : String) :
    (∀ d, getDefectById st i = some d → loadDefect st i = some d) ∧
    (getDefectById st i = none → strStartsWith i "DEF-" = true →
      loadDefect st i = getDefectByCode st i) ∧
    (strStartsWith i "DEF-" = true →
      (loadDefect st i = none ↔
        getDefectById st i = none ∧ getDefectByCode st i = none)) := by
  refine ⟨?_, ?_, ?_⟩
  · intro d hd
    unfold loadDefect
    rw [hd]
  · intro h1 h2
    unfold loadDefect
    rw [h1, h2]
    simp
  · intro h2
    unfold loadDefect
    cases h1 : getDefectById st i with
    | some d => simp
    | none =>
      rw [h2]
      simp

/-- Witness for C10: a code-shaped id that misses the id lookup and falls
back to the code lookup. -/
theorem C10_load_defect_fallback_witness :
    loadDefect wStore "DEF-000001" = getDefectByCode wStore "DEF-000001" :=
  (C10_load_defect_fallback wStore "DEF-000001").2.1 (by decide) (by decide)

/-- C1 counterexample: a defect whose status is Closed, on which
`closeDefect` nevertheless succeeds — it does not fail with an
AlreadyClosed error as the claim states. -/
theorem C1_counterexample :
    getDefectById wStore "d1" = some wClosed ∧
    wClosed.status = DefectStatus.Closed ∧
    ∃ st', closeDefect wStore "d1" wCloseDataPlain "u9" "U9" "t9" = Except.ok st' := by
  refine ⟨by decide, by decide, ?_⟩
  obtain ⟨st', d', heq, -⟩ :=
    closeDefect_spec wStore "d1" wCloseDataPlain "u9" "U9" "t9" wClosed (by decide)
  exact ⟨st', heq⟩

/-- C1 (amended): `closeDefect` performs no current-status check: on a
defect that is already Closed it succeeds and re-applies the close (the
stored record remains Closed with fresh closure metadata); it fails only
when the id does not resolve. -/
theorem C1_close_ignores_closed_status (st : Store) (defectId : String)
    (data : CloseData) (userId userName now : String) (defect : Defect)
    (h : getDefectById st defectId = some defect)
    (_hstatus : defect.status = DefectStatus.Closed) :
    ∃ st' d', closeDefect st defectId data userId userName now = Except.ok st' ∧
      getDefectById st' defectId = some d' ∧
      d'.status = DefectStatus.Closed ∧
      d'.closedAt = some now ∧
      d'.closedBy = some userId := by
  obtain ⟨st', d', h1, h2, h3, h4, h5, -⟩ :=
    closeDefect_spec st defectId data userId userName now defect h
  exact ⟨st', d', h1, h2, h3, h4, h5⟩

/-- Witness for the amended C1 at the concrete Closed defect. -/
theorem C1_close_ignores_closed_status_witness :
    ∃ st' d', closeDefect wStore "d1" wCloseDataPlain "u9" "U9" "t9" = Except.ok st' ∧
      getDefectById st' "d1" = some d' ∧
      d'.status = DefectStatus.Closed ∧
      d'.closedAt = some "t9" ∧
      d'.closedBy = some "u9" :=
  C1_close_ignores_closed_status wStore "d1" wCloseDataPlain "u9" "U9" "t9" wClosed
    (by decide) (by decide)

/-- C4: on a defect whose status is not Closed, `closeDefect` sets
status=Closed, closedAt=now, closedBy/closedByName to the actor,
actionTaken to the given action, appends exactly one comment whose text is
the synthesized "Action: {actionTaken}. {notes}" (containing the
actionTaken string verbatim), and appends history entries of which exactly
one has type close. -/
theorem C4_close_postconditions (st : Store) (defectId : String) (data : CloseData)
    (userId userName now : String) (defect : Defect)
    (h : getDefectById st defectId = some defect)
    (_hstatus : defect.status ≠ DefectStatus.Closed) :
    ∃ st' d', closeDefect st defectId data userId userName now = Except.ok st' ∧
      getDefectById st' defectId = some d' ∧
      d'.status = DefectStatus.Closed ∧
      d'.closedAt = some now ∧
      d'.closedBy = some userId ∧
      d'.closedByName = some userName ∧
      d'.actionTaken = some data.actionTaken ∧
      (∃ c, d'.comments = defect.comments ++ [c] ∧
        c.text = "Action: " ++ data.actionTaken ++ ". " ++ data.notes ∧
        ∃ s t, c.text = s ++ data.actionTaken ++ t) ∧
      (∃ hNew, d'.history = defect.history ++ hNew ∧
        hNew.countP (fun e => e.type == "close") = 1) := by
  obtain ⟨st', d', h1, h2, h3, h4, h5, h6, h7, h8, h9, h10, h11⟩ :=
    closeDefect_spec st defectId data userId userName now defect h
  refine ⟨st', d', h1, h2, h3, h4, h5, h6, h7, ⟨_, h9, rfl, "Action: ", ". " ++ data.notes, ?_⟩, ⟨_, h10, ?_⟩⟩
  · simp [closeSummary, String.append_assoc]
  · cases hc : (data.returnToService == some true) && defect.unsafeDoNotUse <;>
      simp [hc, List.countP_cons, closeHistEntry, clearanceHistEntry]

/-- Witness for C4 at the concrete Open defect. -/
theorem C4_close_postconditions_witness :
    ∃ st' d', closeDefect wStore "d2" wCloseDataPlain "u9" "U9" "t9" = Except.ok st' ∧
      getDefectById st' "d2" = some d' ∧
      d'.status = DefectStatus.Closed ∧
      d'.closedAt = some "t9" ∧
      d'.closedBy = some "u9" ∧
      d'.closedByName = some "U9" ∧
      d'.actionTaken = some wCloseDataPlain.actionTaken ∧
      (∃ c, d'.comments = wOpen.comments ++ [c] ∧
        c.text = "Action: " ++ wCloseDataPlain.actionTaken ++ ". " ++ wCloseDataPlain.notes ∧
        ∃ s t, c.text = s ++ wCloseDataPlain.actionTaken ++ t) ∧
      (∃ hNew, d'.history = wOpen.history ++ hNew ∧
        hNew.countP (fun e => e.type == "close") = 1) :=
  C4_close_postconditions wStore "d2" wCloseDataPlain "u9" "U9" "t9" wOpen
    (by decide) (by decide)

/-- C5: closing with returnToService=true a defect whose unsafe flag was
set yields status Closed, unsafeDoNotUse=false, and exactly two appended
history entries: one of type close followed by one of type status_change
documenting the clearance. -/
theorem C5_return_to_service_clears_unsafe (st : Store) (defectId : String)
    (data : CloseData) (userId userName now : String) (defect : Defect)
    (h : getDefectById st defectId = some defect)
    (hUnsafe : defect.unsafeDoNotUse = true)
    (hrts : data.returnToService = some true) :
    ∃ st' d', closeDefect st defectId data userId userName now = Except.ok st' ∧
      getDefectById st' defectId = some d' ∧
      d'.status = DefectStatus.Closed ∧
      d'.unsafeDoNotUse = false ∧
      d'.history = defect.history ++
        [closeHistEntry data userId userName now,
         clearanceHistEntry userId userName now] ∧
      (closeHistEntry data userId userName now).type = "close" ∧
      (clearanceHistEntry userId userName now).type = "status_change" := by
  obtain ⟨st', d', h1, h2, h3, h4, h5, h6, h7, h8, h9, h10, h11⟩ :=
    closeDefect_spec st defectId data userId userName now defect h
  have hcond : ((data.returnToService == some true) && defect.unsafeDoNotUse) = true := by
    rw [hrts, hUnsafe]
    decide
  refine ⟨st', d', h1, h2, h3, ?_, ?_, rfl, rfl⟩
  · rw [h8, hrts]
    simp
  · rw [h10]
    simp [hcond]

/-- Witness for C5 at the concrete unsafe defect. -/
theorem C5_return_to_service_clears_unsafe_witness :
    ∃ st' d', closeDefect wStore "d3" wCloseData "u9" "U9" "t9" = Except.ok st' ∧
      getDefectById st' "d3" = some d' ∧
      d'.status = DefectStatus.Closed ∧
      d'.unsafeDoNotUse = false ∧
      d'.history = wUnsafe.history ++
        [closeHistEntry wCloseData "u9" "U9" "t9",
         clearanceHistEntry "u9" "U9" "t9"] ∧
      (closeHistEntry wCloseData "u9" "U9" "t9").type = "close" ∧
      (clearanceHistEntry "u9" "U9" "t9").type = "status_change" :=
  C5_return_to_service_clears_unsafe wStore "d3" wCloseData "u9" "U9" "t9" wUnsafe
    (by decide) (by decide) (by decide)

/-- C3: reopening a Closed defect with isNewOccurrence=false sets status
back to Open, increments reopenedCount by exactly 1, clears
closedAt/closedBy/closedByName, appends the given attachments, appends
exactly one history entry of type reopen and one comment
"Reopened: {reason}", and returns the same defect id. -/
theorem C3_reopen_same_record (st : Store) (defectId : String) (data : ReopenData)
    (userId userName now : String) (defect : Defect) (atts : List String)
    (h : getDefectById st defectId = some defect)
    (_hstatus : defect.status = DefectStatus.Closed)
    (hocc : data.isNewOccurrence = false)
    (hatt : data.attachments = some atts) :
    ∃ st' d', reopenDefect st defectId data userId userName now =
        Except.ok (defectId, st') ∧
      getDefectById st' defectId = some d' ∧
      d'.status = DefectStatus.Open ∧
      d'.reopenedCount = defect.reopenedCount + 1 ∧
      d'.closedAt = none ∧
      d'.closedBy = none ∧
      d'.closedByName = none ∧
      d'.attachments = defect.attachments ++ atts ∧
      d'.history = defect.history ++ [reopenHistEntry data userId userName now] ∧
      (reopenHistEntry data userId userName now).type = "reopen" ∧
      (∃ c, d'.comments = defect.comments ++ [c] ∧
        c.text = "Reopened: " ++ data.reason) := by
  obtain ⟨st', d', h1, h2, h3, h4, h5, h6, h7, h8, h9, h10, h11⟩ :=
    reopenDefect_same_spec st defectId data userId userName now defect h hocc
  refine ⟨st', d', h1, h2, h3, h4, h5, h6, h7, ?_, h9, rfl, ⟨_, h10, rfl⟩⟩
  rw [h8, hatt]

/-- Witness for C3 at the concrete Closed defect. -/
theorem C3_reopen_same_record_witness :
    ∃ st' d', reopenDefect wStore "d1" wReopenSame "u9" "U9" "t9" =
        Except.ok ("d1", st') ∧
      getDefectById st' "d1" = some d' ∧
      d'.status = DefectStatus.Open ∧
      d'.reopenedCount = wClosed.reopenedCount + 1 ∧
      d'.closedAt = none ∧
      d'.closedBy = none ∧
      d'.closedByName = none ∧
      d'.attachments = wClosed.attachments ++ ["att1"] ∧
      d'.history = wClosed.history ++ [reopenHistEntry wReopenSame "u9" "U9" "t9"] ∧
      (reopenHistEntry wReopenSame "u9" "U9" "t9").type = "reopen" ∧
      (∃ c, d'.comments = wClosed.comments ++ [c] ∧
        c.text = "Reopened: " ++ wReopenSame.reason) :=
  C3_reopen_same_record wStore "d1" wReopenSame "u9" "U9" "t9" wClosed ["att1"]
    (by decide) (by decide) (by decide) (by decide)

/-- C2: reopening with isNewOccurrence=true never mutates the source
defect's status, increments the source's recurrenceCount by exactly 1
(from a base of 0 when the field was absent), and returns the id of a
brand-new record whose parentDefectId is the source id, whose status is
Open, whose description is the auto-prefixed recurrence text, whose
history and comments start empty, and whose
title/severity/asset/site/assignee/complianceTags/actions are copied from
the source. -/
theorem C2_reopen_new_occurrence (st : Store) (defectId : String) (data : ReopenData)
    (userId userName now : String) (defect : Defect)
    (h : getDefectById st defectId = some defect)
    (hocc : data.isNewOccurrence = true)
    (hfresh : ∀ e ∈ st.defects, e.id ≠ freshDefectId st) :
    ∃ newId st' child parent,
      reopenDefect st defectId data userId userName now = Except.ok (newId, st') ∧
      (∀ e ∈ st.defects, e.id ≠ newId) ∧
      getDefectById st' newId = some child ∧
      child.parentDefectId = some defect.id ∧
      child.status = DefectStatus.Open ∧
      child.description = "Recurrence of " ++ defect.defectCode ++ ": " ++ data.reason ∧
      child.history = [] ∧
      child.comments = [] ∧
      child.title = defect.title ∧
      child.severity = defect.severity ∧
      child.assetId = defect.assetId ∧
      child.siteId = defect.siteId ∧
      child.assignedToId = defect.assignedToId ∧
      child.assignedToName = defect.assignedToName ∧
      child.complianceTags = defect.complianceTags ∧
      child.actions = defect.actions ∧
      getDefectById st' defectId = some parent ∧
      parent.status = defect.status ∧
      parent.recurrenceCount = some (defect.recurrenceCount.getD 0 + 1) := by
  obtain ⟨st', c, p, h1, h2, h3, h4, h5, h6⟩ :=
    reopenDefect_new_spec st defectId data userId userName now defect h hocc hfresh
  subst h3
  subst h5
  exact ⟨freshDefectId st, st', _, _, h1, hfresh, h2, rfl, rfl, rfl, rfl, rfl, rfl,
    rfl, rfl, rfl, rfl, rfl, rfl, rfl, h4, rfl, rfl⟩

/-- Witness for C2 at the concrete Open defect (recurrenceCount absent,
so the parent's count becomes 1). -/
theorem C2_reopen_new_occurrence_witness :
    ∃ newId st' child parent,
      reopenDefect wStore "d2" wReopenNew "u9" "U9" "t9" = Except.ok (newId, st') ∧
      (∀ e ∈ wStore.defects, e.id ≠ newId) ∧
      getDefectById st' newId = some child ∧
      child.parentDefectId = some wOpen.id ∧
      child.status = DefectStatus.Open ∧
      child.description = "Recurrence of " ++ wOpen.defectCode ++ ": " ++ wReopenNew.reason ∧
      child.history = [] ∧
      child.comments = [] ∧
      child.title = wOpen.title ∧
      child.severity = wOpen.severity ∧
      child.assetId = wOpen.assetId ∧
      child.siteId = wOpen.siteId ∧
      child.assignedToId = wOpen.assignedToId ∧
      child.assignedToName = wOpen.assignedToName ∧
      child.complianceTags = wOpen.complianceTags ∧
      child.actions = wOpen.actions ∧
      getDefectById st' "d2" = some parent ∧
      parent.status = wOpen.status ∧
      parent.recurrenceCount = some (wOpen.recurrenceCount.getD 0 + 1) :=
  C2_reopen_new_occurrence wStore "d2" wReopenNew "u9" "U9" "t9" wOpen
    (by decide) (by decide) (by decide)

/-- C8 evaluated at the failing input: reopening with isNewOccurrence=true
creates the recurrence record through the repository `createDefect`
directly, so the creation is never recorded in the sync queue — only the
two follow-up `updateDefect` entries are queued, and no `createDefect` (or
`reopenDefect`) entry exists, although the new record is present in the
collection. -/
theorem C8_recurrence_creation_not_synced :
    ∃ st', reopenDefect wStore "d1" wReopenNew "u9" "U9" "t9" =
        Except.ok (freshDefectId wStore, st') ∧
      (getDefectById st' (freshDefectId wStore)).isSome = true ∧
      st'.syncQueue.map SyncEntry.operationName = ["updateDefect", "updateDefect"] ∧
      st'.syncQueue.countP (fun e => e.operationName == "createDefect") = 0 ∧
      st'.syncQueue.countP (fun e => e.operationName == "reopenDefect") = 0 := by
  obtain ⟨st', c, p, h1, h2, h3, h4, h5, h6⟩ :=
    reopenDefect_new_spec wStore "d1" wReopenNew "u9" "U9" "t9" wClosed
      (by decide) (by decide) (by decide)
  refine ⟨st', h1, ?_, ?_, ?_, ?_⟩
  · rw [h2]
    rfl
  · rw [h6]
    rfl
  · rw [h6]
    rfl
  · rw [h6]
    rfl

/-- C6: for any batch of N ids of which K fail per-item (id not found, or
the update is rejected by validation with no auto-correct),
`bulkUpdateAssets` returns updated = N-K and errors.length = K, records
the failing ids in input order, and is a total function — the batch never
aborts because of one bad item. -/
theorem C6_bulk_update_partial_failure (assets : List Asset) (ids : List String)
    (u : AssetUpdates) :
    ((bulkUpdateAssets assets ids u).1).errors.length =
      (ids.filter (fun i => itemFails assets u i)).length ∧
    ((bulkUpdateAssets assets ids u).1).updated =
      ids.length - (ids.filter (fun i => itemFails assets u i)).length ∧
    ((bulkUpdateAssets assets ids u).1).updated +
      ((bulkUpdateAssets assets ids u).1).errors.length = ids.length ∧
    ((bulkUpdateAssets assets ids u).1).errors.map BulkError.id =
      ids.filter (fun i => itemFails assets u i) := by
  obtain ⟨h1, h2⟩ := bulk_spec ids assets u
  have hlen : ((bulkUpdateAssets assets ids u).1).errors.length =
      (ids.filter (fun i => itemFails assets u i)).length := by
    rw [← h1, List.length_map]
  exact ⟨hlen, by omega, h2, h1⟩

/-- C7: the validator matches the modelled table — lifecycle Disposed with
an operational status other than OffHired/Archived is invalid with an
auto-correct to Archived, Disposed with OffHired/Archived is valid,
Quarantined with Active is valid — and applying a proposed auto-correct
always yields a pair the validator accepts (idempotence of correction). -/
theorem C7_validate_status_table (op : OperationalStatus) (lc : LifecycleStatus) :
    ((lc = LifecycleStatus.Disposed ∧ op ≠ OperationalStatus.OffHired ∧
        op ≠ OperationalStatus.Archived) →
      ((validateStatusCombination op lc).isValid = false ∧
       (validateStatusCombination op lc).autoCorrect =
         some { operationalStatus := some OperationalStatus.Archived })) ∧
    ((lc = LifecycleStatus.Disposed ∧
        (op = OperationalStatus.OffHired ∨ op = OperationalStatus.Archived)) →
      (validateStatusCombination op lc).isValid = true) ∧
    (validateStatusCombination OperationalStatus.Quarantined
      LifecycleStatus.Active).isValid = true ∧
    (∀ ac, (validateStatusCombination op lc).isValid = false →
      (validateStatusCombination op lc).autoCorrect = some ac →
      (validateStatusCombination (applyAutoCorrect op lc ac).1
        (applyAutoCorrect op lc ac).2).isValid = true) := by
  refine ⟨?_, ?_, by decide, ?_⟩
  · cases op <;> cases lc <;> decide
  · cases op <;> cases lc <;> decide
  · intro ac h1 h2
    cases op <;> cases lc <;>
      first
        | exact absurd h1 (by decide)
        | (injection h2 with h3
           rw [← h3]
           decide)

/-- Witness for C7 at the pair (InUse, Disposed): invalid, auto-corrected
to Archived, and the corrected pair is valid. -/
theorem C7_validate_status_table_witness :
    ((validateStatusCombination OperationalStatus.InUse
        LifecycleStatus.Disposed).isValid = false ∧
     (validateStatusCombination OperationalStatus.InUse
        LifecycleStatus.Disposed).autoCorrect =
       some { operationalStatus := some OperationalStatus.Archived }) ∧
    (validateStatusCombination
      (applyAutoCorrect OperationalStatus.InUse LifecycleStatus.Disposed
        { operationalStatus := some OperationalStatus.Archived }).1
      (applyAutoCorrect OperationalStatus.InUse LifecycleStatus.Disposed
        { operationalStatus := some OperationalStatus.Archived }).2).isValid = true :=
  ⟨(C7_validate_status_table OperationalStatus.InUse LifecycleStatus.Disposed).1
      (by decide),
   (C7_validate_status_table OperationalStatus.InUse LifecycleStatus.Disposed).2.2.2
      { operationalStatus := some OperationalStatus.Archived } (by decide) (by decide)⟩
